import Mathlib

/-!
Shallow embedding of the MLX90632 driver core (mlx90632.c /
mlx90632_extended_meas.c) and proofs about its measurement sequencing,
EEPROM writing and temperature compensation routines.

Modelling conventions:
* C `double` values are modelled as exact rationals (`ℚ`); the square root
  is an abstract parameter `sqrtf : ℚ → ℚ`, since the claims under study
  concern the structure of the computations, not floating-point rounding.
* Machine integers are modelled as `ℤ`/`ℕ` with explicit masking; the cast
  `(int16_t)` of a 16-bit register value is `toInt16`.
* C integer division truncates toward zero, hence `Int.tdiv`.
* The i2c transport is an oracle (`Env`) indexed by the number of reads or
  writes already performed; per the driver's dependency contract a read or
  write returns 0 on success and a negative value on failure.  Every driver
  function is translated in state-passing style over `St`, which records the
  operation trace (reads, writes, sleeps) so claims about issued operations
  can be stated.
-/

namespace MLX90632

/-! Error codes (numeric errno.h values used by the driver). -/

def EINVAL : Int := 22

def ERANGE : Int := 34

def EPROTONOSUPPORT : Int := 93

def ETIMEDOUT : Int := 110

/-! Register map constants, from the driver header. -/

def MLX90632_ADDR_RAM : Nat := 0x4000

def MLX90632_RAM_1 (meas_num : Nat) : Nat := MLX90632_ADDR_RAM + 3 * meas_num

def MLX90632_RAM_2 (meas_num : Nat) : Nat := MLX90632_ADDR_RAM + 3 * meas_num + 1

def MLX90632_RAM_3 (meas_num : Nat) : Nat := MLX90632_ADDR_RAM + 3 * meas_num + 2

def MLX90632_REG_STATUS : Nat := 0x3fff

def MLX90632_REG_CTRL : Nat := 0x3001

def MLX90632_EE_VERSION : Nat := 0x240b

def MLX90632_EE_MEDICAL_MEAS1 : Nat := 0x24E1

def MLX90632_EE_MEDICAL_MEAS2 : Nat := 0x24E2

def MLX90632_EE_EXTENDED_MEAS1 : Nat := 0x24F1

def MLX90632_EE_EXTENDED_MEAS2 : Nat := 0x24F2

def MLX90632_EE_EXTENDED_MEAS3 : Nat := 0x24F3

def MLX90632_STAT_DATA_RDY : Nat := 1

def MLX90632_STAT_CYCLE_POS : Nat := 0x7C

def MLX90632_STAT_BUSY : Nat := 0x400

def MLX90632_STAT_EE_BUSY : Nat := 0x200

def MLX90632_EE_REFRESH_RATE_MASK : Nat := 0x700

def MLX90632_MEAS_MAX_TIME : Nat := 2000

def MLX90632_DSPv5 : Nat := 0x05

def MLX90632_XTD_RNG_KEY : Nat := 0x0500

def MLX90632_EEPROM_WRITE_KEY : Nat := 0x554C

def MLX90632_CFG_PWR_MASK : Nat := 0x6

def MLX90632_CFG_MTYP_MASK : Nat := 0x1F0

def MLX90632_START_BURST_MEAS : Nat := 0x800

def MLX90632_PWR_STATUS_HALT : Nat := 0

def MLX90632_PWR_STATUS_SLEEP_STEP : Nat := 2

def MLX90632_PWR_STATUS_CONTINUOUS : Nat := 6

def MLX90632_MTYP_MEDICAL : Nat := 0x00

def MLX90632_MTYP_EXTENDED : Nat := 0x11

def MLX90632_MTYP_MEDICAL_BURST : Nat := 0x80

def MLX90632_MTYP_EXTENDED_BURST : Nat := 0x91

/-- Modelled from the spec: the macro `MLX90632_MAX_NUMBER_MESUREMENT_READ_TRIES`
is declared outside the available sources; the spec fixes the data-ready
polling bound at 100 attempts. -/
def MLX90632_MAX_NUMBER_MESUREMENT_READ_TRIES : Nat := 100

/-- Modelled from the spec: the macro `MLX90632_MTYP` is declared outside the
available sources; per the spec the control register's measurement-type field
occupies bits 4–8. -/
def MLX90632_MTYP (reg : Nat) : Nat := (reg &&& MLX90632_CFG_MTYP_MASK) >>> 4

/-- Modelled from the spec: the macro `MLX90632_CFG_PWR` is declared outside
the available sources; per the spec the power-mode field occupies bits 1–2
(this matches the header's `GET_PWR_STATUS`). -/
def MLX90632_CFG_PWR (reg : Nat) : Nat := reg &&& MLX90632_CFG_PWR_MASK

/-- Modelled from the spec: the macro `MLX90632_NEW_REG_VALUE` and the
refresh-rate field constants are declared outside the available sources; per
the spec the timing-table entries carry the refresh-rate sub-field in bits
8–10 and the new register value is the current value with that sub-field
replaced by the requested rate code. -/
def MLX90632_NEW_REG_VALUE (reg_value measRate : Nat) : Nat :=
  (reg_value &&& (0xFFFF ^^^ MLX90632_EE_REFRESH_RATE_MASK)) ||| (measRate <<< 8)

/-- The value of a 16-bit register word reinterpreted as a C `int16_t`. -/
def toInt16 (w : Nat) : ℤ :=
  if w % 65536 < 32768 then ((w % 65536 : Nat) : ℤ) else ((w % 65536 : Nat) : ℤ) - 65536

def POW10 : ℤ := 10000000000

/-! ### Temperature compensation engine (pure, from mlx90632.c) -/

/-- One iteration of the DSPv5 object-temperature refinement
(`mlx90632_calc_temp_object_iteration` in mlx90632.c). -/
def mlx90632_calc_temp_object_iteration (sqrtf : ℚ → ℚ) (prev_object_temp : ℚ)
    (object : ℤ) (TAdut : ℚ) (Ga Fa Fb Ha Hb : ℤ) (emissivity : ℚ) : ℚ :=
  let Ha_customer : ℚ := (Ha : ℚ) / 16384
  let Hb_customer : ℚ := (Hb : ℚ) / 1024
  let calcedGa : ℚ := ((Ga : ℚ) * (prev_object_temp - 25)) / 68719476736
  let KsTAtmp : ℚ := (Fb : ℚ) * (TAdut - 25)
  let calcedGb : ℚ := KsTAtmp / 68719476736
  let Alpha_corr : ℚ :=
    (((Fa * POW10 : ℤ) : ℚ) * Ha_customer * (1 + calcedGa + calcedGb)) / 70368744177664
  let calcedFa : ℚ := (object : ℚ) / (emissivity * (Alpha_corr / (POW10 : ℚ)))
  let TAdut4 : ℚ := (TAdut + 273.15) * (TAdut + 273.15) * (TAdut + 273.15) * (TAdut + 273.15)
  let first_sqrt : ℚ := sqrtf (calcedFa + TAdut4)
  sqrtf first_sqrt - 273.15 - Hb_customer

/-- Initial value of the process-wide emissivity state
(`static double emissivity = 0.0;`). -/
def emissivity_initial : ℚ := 0

/-- The emissivity setter; returns the new emissivity state. -/
def mlx90632_set_emissivity (value : ℚ) (_emissivity : ℚ) : ℚ := value

/-- The emissivity getter; returns the read value together with the (unchanged)
emissivity state. -/
def mlx90632_get_emissivity (emissivity : ℚ) : ℚ × ℚ :=
  (if emissivity = 0 then 1 else emissivity, emissivity)

/-- The `for (i = 0; i < 5; ++i)` loop body of `mlx90632_calc_temp_object`. -/
def calc_temp_object_loop (sqrtf : ℚ → ℚ) (object : ℤ) (TAdut : ℚ)
    (Ga Fa Fb Ha Hb : ℤ) (emi : ℚ) : Nat → ℚ → ℚ
  | 0, temp => temp
  | n + 1, temp =>
      calc_temp_object_loop sqrtf object TAdut Ga Fa Fb Ha Hb emi n
        (mlx90632_calc_temp_object_iteration sqrtf temp object TAdut Ga Fa Fb Ha Hb emi)

/-- Object temperature calculation (`mlx90632_calc_temp_object` in
mlx90632.c); `emissivity_state` is the process-wide emissivity global. -/
def mlx90632_calc_temp_object (sqrtf : ℚ → ℚ) (emissivity_state : ℚ)
    (object ambient : ℤ) (Ea Eb Ga Fa Fb Ha Hb : ℤ) : ℚ :=
  let kEa : ℚ := (Ea : ℚ) / 65536
  let kEb : ℚ := (Eb : ℚ) / 256
  let TAdut : ℚ := ((ambient : ℚ) - kEb) / kEa + 25
  let tmp_emi : ℚ := (mlx90632_get_emissivity emissivity_state).1
  calc_temp_object_loop sqrtf object TAdut Ga Fa Fb Ha Hb tmp_emi 5 25

/-! ### Channel selection (pure, from mlx90632.c) -/

/-- Channel resolution (`mlx90632_channel_new_select`): the first component is
the C return value, the second the pair written through the out-pointers
(`none` when they are left unassigned). -/
def mlx90632_channel_new_select (ret : ℤ) : ℤ × Option (ℕ × ℕ) :=
  if ret = 1 then (0, some (1, 2))
  else if ret = 2 then (0, some (2, 1))
  else (-EINVAL, none)

/-! ### Helper lemmas -/

theorem calc_temp_object_loop_eq_iterate (sqrtf : ℚ → ℚ) (object : ℤ) (TAdut : ℚ)
    (Ga Fa Fb Ha Hb : ℤ) (emi : ℚ) (n : Nat) (t : ℚ) :
    calc_temp_object_loop sqrtf object TAdut Ga Fa Fb Ha Hb emi n t =
      (fun x => mlx90632_calc_temp_object_iteration sqrtf x object TAdut Ga Fa Fb Ha Hb emi)^[n] t := by
  induction n generalizing t with
  | zero => rfl
  | succ n ih =>
      rw [calc_temp_object_loop, ih, Function.iterate_succ_apply]

/-! ### Claim theorems (pure) -/

/-- C1: for every object raw value, preprocessed ambient value and calibration
constants, `mlx90632_calc_temp_object` first computes
`TAdut = (ambient - Eb/256)/(Ea/65536) + 25` and then returns the result of
applying `mlx90632_calc_temp_object_iteration` exactly 5 times, seeded at
25.0, each iteration feeding the previous result as `prev_object_temp`, with
the emissivity taken from `mlx90632_get_emissivity`. -/
theorem C1_calc_temp_object_five_iterations (sqrtf : ℚ → ℚ) (est : ℚ)
    (object ambient Ea Eb Ga Fa Fb Ha Hb : ℤ) :
    mlx90632_calc_temp_object sqrtf est object ambient Ea Eb Ga Fa Fb Ha Hb =
      (fun t => mlx90632_calc_temp_object_iteration sqrtf t object
          (((ambient : ℚ) - (Eb : ℚ) / 256) / ((Ea : ℚ) / 65536) + 25)
          Ga Fa Fb Ha Hb (mlx90632_get_emissivity est).1)^[5] 25 := by
  unfold mlx90632_calc_temp_object
  rw [calc_temp_object_loop_eq_iterate]

/-- C2: `mlx90632_channel_new_select` maps position 1 to `(new, old) = (1, 2)`
with return 0, position 2 to `(2, 1)` with return 0, and any other position to
return `-EINVAL` with the outputs unassigned; in the success cases the two
channels differ and both lie in `{1, 2}`. -/
theorem C2_channel_new_select_cases (pos : ℤ) :
    mlx90632_channel_new_select 1 = (0, some (1, 2)) ∧
    mlx90632_channel_new_select 2 = (0, some (2, 1)) ∧
    (pos ≠ 1 → pos ≠ 2 → mlx90632_channel_new_select pos = (-EINVAL, none)) ∧
    (∀ cn co : ℕ, (mlx90632_channel_new_select pos).2 = some (cn, co) →
      (mlx90632_channel_new_select pos).1 = 0 ∧ cn ≠ co ∧
        (cn = 1 ∨ cn = 2) ∧ (co = 1 ∨ co = 2)) := by
  refine ⟨rfl, rfl, fun h1 h2 => ?_, fun cn co h => ?_⟩
  · simp [mlx90632_channel_new_select, h1, h2]
  · by_cases hp1 : pos = 1
    · subst hp1
      simp [mlx90632_channel_new_select] at h
      obtain ⟨h1, h2⟩ := h
      subst h1; subst h2
      simp [mlx90632_channel_new_select]
    · by_cases hp2 : pos = 2
      · subst hp2
        simp [mlx90632_channel_new_select] at h
        obtain ⟨h1, h2⟩ := h
        subst h1; subst h2
        simp [mlx90632_channel_new_select]
      · simp [mlx90632_channel_new_select, hp1, hp2] at h

/-- Witness for C2 at the concrete invalid position 5. -/
theorem C2_channel_new_select_witness :
    mlx90632_channel_new_select 5 = (-EINVAL, none) :=
  (C2_channel_new_select_cases 5).2.2.1 (by decide) (by decide)

/-- C7: setting a nonzero emissivity and reading it back returns exactly that
value; setting 0.0 or never setting at all reads back as 1.0; the getter does
not change the stored state. -/
theorem C7_emissivity_roundtrip (v s : ℚ) :
    (v ≠ 0 → (mlx90632_get_emissivity (mlx90632_set_emissivity v s)).1 = v) ∧
    (mlx90632_get_emissivity (mlx90632_set_emissivity 0 s)).1 = 1 ∧
    (mlx90632_get_emissivity emissivity_initial).1 = 1 ∧
    (mlx90632_get_emissivity s).2 = s := by
  refine ⟨fun hv => ?_, ?_, ?_, rfl⟩ <;>
    simp [mlx90632_get_emissivity, mlx90632_set_emissivity, emissivity_initial, *]

/-- Witness for C7 at the concrete emissivity value 1/2. -/
theorem C7_emissivity_roundtrip_witness :
    (mlx90632_get_emissivity (mlx90632_set_emissivity (1 / 2) emissivity_initial)).1 = 1 / 2 :=
  (C7_emissivity_roundtrip (1 / 2) emissivity_initial).1 (by norm_num)

/-! ### The i2c transport model -/

/-- One device access: an i2c read, an i2c write, a ranged microsecond sleep,
or a millisecond sleep. -/
inductive Op where
  | rd : Nat → Op
  | wr : Nat → Nat → Op
  | slp : Nat → Nat → Op
  | mslp : Int → Op
deriving DecidableEq, Repr

/-- The transport oracle: `rdR n a` is the return code and raw value of the
`n`-th i2c read overall when it addresses `a`; `wrR n a v` is the return code
of the `n`-th i2c write.  Per the dependency contract, 0 means success and a
negative value failure. -/
structure Env where
  rdR : Nat → Nat → Int × Nat
  wrR : Nat → Nat → Nat → Int

/-- Driver execution state: number of reads and writes performed so far, and
the trace of device accesses. -/
structure St where
  nR : Nat
  nW : Nat
  tr : List Op
deriving DecidableEq, Repr

/-- Transport read; the value is stored into a `uint16_t`, hence the mod. -/
def mlx90632_i2c_read (a : Nat) (e : Env) (s : St) : (Int × Nat) × St :=
  (((e.rdR s.nR a).1, (e.rdR s.nR a).2 % 65536), ⟨s.nR + 1, s.nW, s.tr ++ [Op.rd a]⟩)

/-- Transport write. -/
def mlx90632_i2c_write (a v : Nat) (e : Env) (s : St) : Int × St :=
  (e.wrR s.nW a v, ⟨s.nR, s.nW + 1, s.tr ++ [Op.wr a v]⟩)

/-- Ranged microsecond sleep. -/
def usleep (lo hi : Nat) (s : St) : St := ⟨s.nR, s.nW, s.tr ++ [Op.slp lo hi]⟩

/-- Millisecond sleep. -/
def msleep (ms : Int) (s : St) : St := ⟨s.nR, s.nW, s.tr ++ [Op.mslp ms]⟩

/-- The 16-bit value delivered by the `n`-th i2c read when it addresses the
status register. -/
def statusVal (e : Env) (n : Nat) : Nat := (e.rdR n MLX90632_REG_STATUS).2 % 65536

/-! ### Measurement sequencer (from mlx90632.c) -/

/-- Outcome of a bounded status-polling loop. -/
inductive PollRes where
  | err : Int → PollRes
  | ready : Nat → PollRes
  | expired : PollRes
deriving DecidableEq, Repr

/-- The data-ready polling loop of `mlx90632_start_measurement`
(`while (tries-- > 0) { read; if error return; if ready break; usleep; }`). -/
def pollDataRdy (e : Env) : Nat → St → PollRes × St
  | 0, s => (.expired, s)
  | t + 1, s =>
      let r := mlx90632_i2c_read MLX90632_REG_STATUS e s
      if r.1.1 < 0 then (.err r.1.1, r.2)
      else if r.1.2 &&& MLX90632_STAT_DATA_RDY ≠ 0 then (.ready r.1.2, r.2)
      else pollDataRdy e t (usleep 10000 11000 r.2)

/-- Trigger a measurement and wait for data-ready
(`mlx90632_start_measurement` in mlx90632.c). -/
def mlx90632_start_measurement (e : Env) (s : St) : Int × St :=
  let r := mlx90632_i2c_read MLX90632_REG_STATUS e s
  if r.1.1 < 0 then (r.1.1, r.2)
  else
    let w := mlx90632_i2c_write MLX90632_REG_STATUS (r.1.2 &&& 0xFFFE) e r.2
    if w.1 < 0 then (w.1, w.2)
    else
      match pollDataRdy e MLX90632_MAX_NUMBER_MESUREMENT_READ_TRIES w.2 with
      | (.err ret, s2) => (ret, s2)
      | (.ready v, s2) => ((((v &&& MLX90632_STAT_CYCLE_POS) >>> 2 : Nat) : Int), s2)
      | (.expired, s2) => (-ETIMEDOUT, s2)

/-- Trace produced by `t` unsuccessful data-ready polls (each one status read
followed by one ranged sleep). -/
def pollTrace : Nat → List Op
  | 0 => []
  | t + 1 => [Op.rd MLX90632_REG_STATUS, Op.slp 10000 11000] ++ pollTrace t

/-! ### Polling loop lemmas -/

theorem pollTrace_count_slp (t : Nat) : (pollTrace t).count (Op.slp 10000 11000) = t := by
  induction t with
  | zero => rfl
  | succ t ih => simp [pollTrace, List.count_cons, ih]

theorem pollTrace_count_rd (t : Nat) :
    (pollTrace t).count (Op.rd MLX90632_REG_STATUS) = t := by
  induction t with
  | zero => rfl
  | succ t ih => simp [pollTrace, List.count_cons, ih]

theorem pollDataRdy_all_clear (e : Env) (t : Nat) :
    ∀ s : St,
    (∀ k, k < t → 0 ≤ (e.rdR (s.nR + k) MLX90632_REG_STATUS).1) →
    (∀ k, k < t → statusVal e (s.nR + k) &&& MLX90632_STAT_DATA_RDY = 0) →
    pollDataRdy e t s = (.expired, ⟨s.nR + t, s.nW, s.tr ++ pollTrace t⟩) := by
  induction t with
  | zero => intro s _ _; simp [pollDataRdy, pollTrace]
  | succ t ih =>
      intro s hr hbit
      have h0 : 0 ≤ (e.rdR (s.nR + 0) MLX90632_REG_STATUS).1 := hr 0 (Nat.succ_pos t)
      have hb0 : statusVal e (s.nR + 0) &&& MLX90632_STAT_DATA_RDY = 0 :=
        hbit 0 (Nat.succ_pos t)
      simp only [Nat.add_zero] at h0 hb0
      rw [pollDataRdy]
      simp only [mlx90632_i2c_read, not_lt.mpr h0, if_false]
      rw [if_neg (by simpa [statusVal] using hb0)]
      rw [show usleep 10000 11000 ⟨s.nR + 1, s.nW, s.tr ++ [Op.rd MLX90632_REG_STATUS]⟩ =
            ⟨s.nR + 1, s.nW, s.tr ++ [Op.rd MLX90632_REG_STATUS, Op.slp 10000 11000]⟩ from
          by simp [usleep]]
      rw [ih ⟨s.nR + 1, s.nW, s.tr ++ [Op.rd MLX90632_REG_STATUS, Op.slp 10000 11000]⟩
        (by intro k hk
            have := hr (k + 1) (by omega)
            rwa [(by omega : s.nR + (k + 1) = s.nR + 1 + k)] at this)
        (by intro k hk
            have := hbit (k + 1) (by omega)
            rwa [(by omega : s.nR + (k + 1) = s.nR + 1 + k)] at this)]
      simp [pollTrace, List.append_assoc]
      omega

theorem pollDataRdy_found (e : Env) (k : Nat) :
    ∀ (t : Nat) (s : St), k < t →
    (∀ j, j ≤ k → 0 ≤ (e.rdR (s.nR + j) MLX90632_REG_STATUS).1) →
    (∀ j, j < k → statusVal e (s.nR + j) &&& MLX90632_STAT_DATA_RDY = 0) →
    statusVal e (s.nR + k) &&& MLX90632_STAT_DATA_RDY ≠ 0 →
    pollDataRdy e t s =
      (.ready (statusVal e (s.nR + k)),
       ⟨s.nR + k + 1, s.nW, s.tr ++ pollTrace k ++ [Op.rd MLX90632_REG_STATUS]⟩) := by
  induction k with
  | zero =>
      intro t s ht hr _ hset
      obtain ⟨t', rfl⟩ : ∃ t', t = t' + 1 := ⟨t - 1, by omega⟩
      have h0 : 0 ≤ (e.rdR (s.nR + 0) MLX90632_REG_STATUS).1 := hr 0 (Nat.le_refl 0)
      simp only [Nat.add_zero] at h0 hset
      rw [pollDataRdy]
      simp only [mlx90632_i2c_read, not_lt.mpr h0, if_false]
      rw [if_pos (by simpa [statusVal] using hset)]
      simp [statusVal, pollTrace]
  | succ k ih =>
      intro t s ht hr hclear hset
      obtain ⟨t', rfl⟩ : ∃ t', t = t' + 1 := ⟨t - 1, by omega⟩
      have h0 : 0 ≤ (e.rdR (s.nR + 0) MLX90632_REG_STATUS).1 := hr 0 (Nat.zero_le _)
      have hb0 : statusVal e (s.nR + 0) &&& MLX90632_STAT_DATA_RDY = 0 :=
        hclear 0 (Nat.succ_pos k)
      simp only [Nat.add_zero] at h0 hb0
      rw [pollDataRdy]
      simp only [mlx90632_i2c_read, not_lt.mpr h0, if_false]
      rw [if_neg (by simpa [statusVal] using hb0)]
      rw [show usleep 10000 11000 ⟨s.nR + 1, s.nW, s.tr ++ [Op.rd MLX90632_REG_STATUS]⟩ =
            ⟨s.nR + 1, s.nW, s.tr ++ [Op.rd MLX90632_REG_STATUS, Op.slp 10000 11000]⟩ from
          by simp [usleep]]
      rw [ih t' ⟨s.nR + 1, s.nW, s.tr ++ [Op.rd MLX90632_REG_STATUS, Op.slp 10000 11000]⟩
        (by omega)
        (by intro j hj
            have := hr (j + 1) (by omega)
            rwa [(by omega : s.nR + (j + 1) = s.nR + 1 + j)] at this)
        (by intro j hj
            have := hclear (j + 1) (by omega)
            rwa [(by omega : s.nR + (j + 1) = s.nR + 1 + j)] at this)
        (by rwa [(by omega : s.nR + 1 + k = s.nR + (k + 1))])]
      rw [(by omega : s.nR + (k + 1) = s.nR + 1 + k)]
      simp [pollTrace, List.append_assoc]

/-- C3: if every status-register read and write succeeds but the data-ready
bit is never set, `mlx90632_start_measurement` returns `-ETIMEDOUT` after
exactly 100 status polls with exactly 100 polling sleeps; if data-ready is set
on some poll within the bound, it stops polling at that poll and returns the
cycle-position field (status bits 2–6 shifted right by 2), a non-negative
value. -/
theorem C3_start_measurement_poll_bound (e : Env) (s0 : St)
    (hr : ∀ k, 0 ≤ (e.rdR (s0.nR + k) MLX90632_REG_STATUS).1)
    (hw : ∀ v, 0 ≤ e.wrR s0.nW MLX90632_REG_STATUS v) :
    ((∀ k, k < 100 → statusVal e (s0.nR + 1 + k) &&& MLX90632_STAT_DATA_RDY = 0) →
      mlx90632_start_measurement e s0 =
        (-ETIMEDOUT,
         ⟨s0.nR + 101, s0.nW + 1,
          s0.tr ++ [Op.rd MLX90632_REG_STATUS,
                    Op.wr MLX90632_REG_STATUS (statusVal e s0.nR &&& 0xFFFE)] ++
            pollTrace 100⟩) ∧
      (pollTrace 100).count (Op.slp 10000 11000) = 100 ∧
      (pollTrace 100).count (Op.rd MLX90632_REG_STATUS) = 100) ∧
    (∀ k, k < 100 →
      (∀ j, j < k → statusVal e (s0.nR + 1 + j) &&& MLX90632_STAT_DATA_RDY = 0) →
      statusVal e (s0.nR + 1 + k) &&& MLX90632_STAT_DATA_RDY ≠ 0 →
      mlx90632_start_measurement e s0 =
        ((((statusVal e (s0.nR + 1 + k) &&& MLX90632_STAT_CYCLE_POS) >>> 2 : Nat) : Int),
         ⟨s0.nR + k + 2, s0.nW + 1,
          s0.tr ++ [Op.rd MLX90632_REG_STATUS,
                    Op.wr MLX90632_REG_STATUS (statusVal e s0.nR &&& 0xFFFE)] ++
            pollTrace k ++ [Op.rd MLX90632_REG_STATUS]⟩) ∧
      0 ≤ (((statusVal e (s0.nR + 1 + k) &&& MLX90632_STAT_CYCLE_POS) >>> 2 : Nat) : Int)) := by
  have h0 : 0 ≤ (e.rdR s0.nR MLX90632_REG_STATUS).1 := by
    have := hr 0; simpa using this
  constructor
  · intro hclear
    refine ⟨?_, pollTrace_count_slp 100, pollTrace_count_rd 100⟩
    unfold mlx90632_start_measurement
    simp only [mlx90632_i2c_read, not_lt.mpr h0, if_false,
      MLX90632_MAX_NUMBER_MESUREMENT_READ_TRIES]
    simp only [mlx90632_i2c_write, not_lt.mpr (hw _), if_false]
    rw [pollDataRdy_all_clear e 100 ⟨s0.nR + 1, s0.nW + 1,
        s0.tr ++ [Op.rd MLX90632_REG_STATUS] ++
          [Op.wr MLX90632_REG_STATUS ((e.rdR s0.nR MLX90632_REG_STATUS).2 % 65536 &&& 0xFFFE)]⟩
      (by intro k hk
          have := hr (1 + k)
          rwa [(by omega : s0.nR + (1 + k) = s0.nR + 1 + k)] at this)
      (by intro k hk; exact hclear k hk)]
    simp [statusVal, List.append_assoc]
  · intro k hk hclear hset
    constructor
    · unfold mlx90632_start_measurement
      simp only [mlx90632_i2c_read, not_lt.mpr h0, if_false,
        MLX90632_MAX_NUMBER_MESUREMENT_READ_TRIES]
      simp only [mlx90632_i2c_write, not_lt.mpr (hw _), if_false]
      rw [pollDataRdy_found e k 100 ⟨s0.nR + 1, s0.nW + 1,
          s0.tr ++ [Op.rd MLX90632_REG_STATUS] ++
            [Op.wr MLX90632_REG_STATUS ((e.rdR s0.nR MLX90632_REG_STATUS).2 % 65536 &&& 0xFFFE)]⟩
        hk
        (by intro j hj
            have := hr (1 + j)
            rwa [(by omega : s0.nR + (1 + j) = s0.nR + 1 + j)] at this)
        (by intro j hj; exact hclear j hj)
        hset]
      simp [statusVal, List.append_assoc]
      omega
    · exact Int.ofNat_nonneg _

/-- Witness environment: all reads return status 0 (data never ready), all
writes succeed. -/
def envTimeoutC3 : Env := ⟨fun _ _ => (0, 0), fun _ _ _ => 0⟩

/-- Witness for C3: with a device that never sets data-ready, the trigger
returns `-ETIMEDOUT` with exactly 100 polls and 100 sleeps recorded. -/
theorem C3_start_measurement_poll_bound_witness :
    mlx90632_start_measurement envTimeoutC3 ⟨0, 0, []⟩ =
      (-ETIMEDOUT,
       ⟨101, 1,
        [Op.rd MLX90632_REG_STATUS, Op.wr MLX90632_REG_STATUS 0] ++ pollTrace 100⟩) ∧
    (pollTrace 100).count (Op.slp 10000 11000) = 100 := by
  have h := (C3_start_measurement_poll_bound envTimeoutC3 ⟨0, 0, []⟩
      (fun k => by simp [envTimeoutC3]) (fun v => by simp [envTimeoutC3])).1
      (fun k _ => by simp [envTimeoutC3, statusVal])
  exact ⟨by simpa [envTimeoutC3, statusVal] using h.1, h.2.1⟩

/-! ### Extended-range raw reads (from mlx90632_extended_meas.c) -/

/-- Extended ambient raw read (`mlx90632_read_temp_ambient_raw_extended`);
the two `Option ℤ` components are the values written through the
out-pointers. -/
def mlx90632_read_temp_ambient_raw_extended (e : Env) (s : St) :
    (Int × Option ℤ × Option ℤ) × St :=
  let r1 := mlx90632_i2c_read (MLX90632_RAM_3 17) e s
  if r1.1.1 < 0 then ((r1.1.1, none, none), r1.2)
  else
    let r2 := mlx90632_i2c_read (MLX90632_RAM_3 18) e r1.2
    if r2.1.1 < 0 then ((r2.1.1, some (toInt16 r1.1.2), none), r2.2)
    else ((r2.1.1, some (toInt16 r1.1.2), some (toInt16 r2.1.2)), r2.2)

/-- Extended object raw read (`mlx90632_read_temp_object_raw_extended`); the
`Option ℤ` component is the value written through `object_new_raw` (`none`
when it is left unassigned). -/
def mlx90632_read_temp_object_raw_extended (e : Env) (s : St) :
    (Int × Option ℤ) × St :=
  let r1 := mlx90632_i2c_read (MLX90632_RAM_1 17) e s
  if r1.1.1 < 0 then ((r1.1.1, none), r1.2)
  else
    let r2 := mlx90632_i2c_read (MLX90632_RAM_2 17) e r1.2
    if r2.1.1 < 0 then ((r2.1.1, none), r2.2)
    else
      let r3 := mlx90632_i2c_read (MLX90632_RAM_1 18) e r2.2
      if r3.1.1 < 0 then ((r3.1.1, none), r3.2)
      else
        let r4 := mlx90632_i2c_read (MLX90632_RAM_2 18) e r3.2
        if r4.1.1 < 0 then ((r4.1.1, none), r4.2)
        else
          let r5 := mlx90632_i2c_read (MLX90632_RAM_1 19) e r4.2
          if r5.1.1 < 0 then ((r5.1.1, none), r5.2)
          else
            let r6 := mlx90632_i2c_read (MLX90632_RAM_2 19) e r5.2
            if r6.1.1 < 0 then ((r6.1.1, none), r6.2)
            else
              let read : ℤ :=
                Int.tdiv (toInt16 r1.1.2 - toInt16 r2.1.2 - toInt16 r3.1.2 + toInt16 r4.1.2) 2
                  + toInt16 r5.1.2 + toInt16 r6.1.2
              if read > 32767 ∨ read < -32768 then ((-EINVAL, none), r6.2)
              else ((r6.1.1, some read), r6.2)

/-- The combination formula of the six extended-range object sub-reads, for
stating C4 (this mirrors the accumulation in the source). -/
@[reducible] def extObjectCombine (t1 t2 t3 t4 t5 t6 : ℤ) : ℤ :=
  Int.tdiv (t1 - t2 - t3 + t4) 2 + t5 + t6

/-- C4: when all six sub-register reads succeed,
`mlx90632_read_temp_object_raw_extended` combines them in the fixed order
RAM_1(17), RAM_2(17), RAM_1(18), RAM_2(18), RAM_1(19), RAM_2(19) as
`(read1 - read2 - read3 + read4)/2 + read5 + read6` in exact signed
arithmetic; if the result lies outside `[-32768, 32767]` it returns `-EINVAL`
and stores nothing, otherwise it stores the value and returns 0. -/
theorem C4_read_temp_object_raw_extended_combine (e : Env) (s0 : St)
    (w1 w2 w3 w4 w5 w6 : Nat)
    (h1 : e.rdR s0.nR (MLX90632_RAM_1 17) = (0, w1))
    (h2 : e.rdR (s0.nR + 1) (MLX90632_RAM_2 17) = (0, w2))
    (h3 : e.rdR (s0.nR + 2) (MLX90632_RAM_1 18) = (0, w3))
    (h4 : e.rdR (s0.nR + 3) (MLX90632_RAM_2 18) = (0, w4))
    (h5 : e.rdR (s0.nR + 4) (MLX90632_RAM_1 19) = (0, w5))
    (h6 : e.rdR (s0.nR + 5) (MLX90632_RAM_2 19) = (0, w6)) :
    mlx90632_read_temp_object_raw_extended e s0 =
      ((if 32767 < extObjectCombine (toInt16 w1) (toInt16 w2) (toInt16 w3) (toInt16 w4)
            (toInt16 w5) (toInt16 w6) ∨
          extObjectCombine (toInt16 w1) (toInt16 w2) (toInt16 w3) (toInt16 w4)
            (toInt16 w5) (toInt16 w6) < -32768 then
          (-EINVAL, none)
        else
          (0, some (extObjectCombine (toInt16 w1) (toInt16 w2) (toInt16 w3) (toInt16 w4)
            (toInt16 w5) (toInt16 w6)))),
       ⟨s0.nR + 6, s0.nW,
        s0.tr ++ [Op.rd (MLX90632_RAM_1 17), Op.rd (MLX90632_RAM_2 17),
          Op.rd (MLX90632_RAM_1 18), Op.rd (MLX90632_RAM_2 18),
          Op.rd (MLX90632_RAM_1 19), Op.rd (MLX90632_RAM_2 19)]⟩) := by
  have hm : ∀ w : Nat, toInt16 (w % 65536) = toInt16 w := by
    intro w; simp [toInt16]
  simp only [mlx90632_read_temp_object_raw_extended, mlx90632_i2c_read,
    h1, h2, h3, h4, h5, h6]
  norm_num [hm, extObjectCombine]
  split <;> simp [List.append_assoc]

/-- Witness environment for C4: the six object sub-reads deliver values whose
combination overflows the signed 16-bit range. -/
def envOverflowC4 : Env :=
  ⟨fun _ a =>
      (0, if a = MLX90632_RAM_1 17 then 0x7FFF
        else if a = MLX90632_RAM_2 17 then 0x8000
        else if a = MLX90632_RAM_1 18 then 0x8000
        else if a = MLX90632_RAM_2 18 then 0x7FFF
        else if a = MLX90632_RAM_1 19 then 0x7FFF
        else 0x7FFF),
    fun _ _ _ => 0⟩

/-- Witness for C4: an overflowing combination yields `-EINVAL` with nothing
stored. -/
theorem C4_read_temp_object_raw_extended_combine_witness :
    (mlx90632_read_temp_object_raw_extended envOverflowC4 ⟨0, 0, []⟩).1 = (-EINVAL, none) := by
  have h := C4_read_temp_object_raw_extended_combine envOverflowC4 ⟨0, 0, []⟩
    0x7FFF 0x8000 0x8000 0x7FFF 0x7FFF 0x7FFF
    (by simp [envOverflowC4, MLX90632_RAM_1, MLX90632_RAM_2, MLX90632_ADDR_RAM])
    (by simp [envOverflowC4, MLX90632_RAM_1, MLX90632_RAM_2, MLX90632_ADDR_RAM])
    (by simp [envOverflowC4, MLX90632_RAM_1, MLX90632_RAM_2, MLX90632_ADDR_RAM])
    (by simp [envOverflowC4, MLX90632_RAM_1, MLX90632_RAM_2, MLX90632_ADDR_RAM])
    (by simp [envOverflowC4, MLX90632_RAM_1, MLX90632_RAM_2, MLX90632_ADDR_RAM])
    (by simp [envOverflowC4, MLX90632_RAM_1, MLX90632_RAM_2, MLX90632_ADDR_RAM])
  rw [h]
  decide

/-! ### Driver initialization (from mlx90632.c) -/

/-- Driver initialization (`mlx90632_init`). -/
def mlx90632_init (e : Env) (s : St) : Int × St :=
  let r1 := mlx90632_i2c_read MLX90632_EE_VERSION e s
  if r1.1.1 < 0 then (r1.1.1, r1.2)
  else if r1.1.2 &&& 0x00FF ≠ MLX90632_DSPv5 then (-EPROTONOSUPPORT, r1.2)
  else
    let r2 := mlx90632_i2c_read MLX90632_REG_STATUS e r1.2
    if r2.1.1 < 0 then (r2.1.1, r2.2)
    else
      let w := mlx90632_i2c_write MLX90632_REG_STATUS (r2.1.2 &&& 0xFFFE) e r2.2
      if w.1 < 0 then (w.1, w.2)
      else if r1.1.2 &&& 0x7F00 = MLX90632_XTD_RNG_KEY then (ERANGE, w.2)
      else (0, w.2)

/-- C5: given a successful version read (and successful subsequent I/O),
`mlx90632_init` returns `-EPROTONOSUPPORT` exactly when the version's low
byte differs from the DSPv5 code 0x05; with a matching version it returns the
positive non-error code `ERANGE` exactly when the version masked by 0x7F00
equals the extended-range key 0x0500, and 0 otherwise. -/
theorem C5_init_version_gate (e : Env) (s0 : St) (v : Nat)
    (hv : e.rdR s0.nR MLX90632_EE_VERSION = (0, v)) (hvb : v < 65536)
    (hs : (e.rdR (s0.nR + 1) MLX90632_REG_STATUS).1 = 0)
    (hw : ∀ x, e.wrR s0.nW MLX90632_REG_STATUS x = 0) :
    ((mlx90632_init e s0).1 = -EPROTONOSUPPORT ↔ v &&& 0x00FF ≠ MLX90632_DSPv5) ∧
    (v &&& 0x00FF = MLX90632_DSPv5 →
      (mlx90632_init e s0).1 =
        (if v &&& 0x7F00 = MLX90632_XTD_RNG_KEY then ERANGE else 0)) := by
  by_cases hlow : v &&& 0x00FF = MLX90632_DSPv5
  · have hinit : (mlx90632_init e s0).1 =
        (if v &&& 0x7F00 = MLX90632_XTD_RNG_KEY then ERANGE else 0) := by
      simp only [mlx90632_init, mlx90632_i2c_read, mlx90632_i2c_write, hv,
        Nat.mod_eq_of_lt hvb, hlow, hs, hw]
      norm_num
      split <;> simp
    refine ⟨?_, fun _ => hinit⟩
    rw [hinit]
    constructor
    · intro hctr
      exfalso
      by_cases hkey : v &&& 0x7F00 = MLX90632_XTD_RNG_KEY <;>
        simp [hkey, ERANGE, EPROTONOSUPPORT] at hctr
    · intro hctr; exact absurd hlow hctr
  · have hinit : (mlx90632_init e s0).1 = -EPROTONOSUPPORT := by
      simp only [mlx90632_init, mlx90632_i2c_read, hv, Nat.mod_eq_of_lt hvb]
      norm_num [hlow]
    refine ⟨?_, fun h => absurd h hlow⟩
    simp [hinit, hlow]

/-- Witness environment for C5: version register reads 0x0505 (DSPv5 low byte,
extended-range key in the high bits); status reads 0; all writes succeed. -/
def envInitC5 : Env :=
  ⟨fun _ a => (0, if a = MLX90632_EE_VERSION then 0x0505 else 0), fun _ _ _ => 0⟩

/-- Witness for C5: with the extended-range key present, initialization
returns the positive code `ERANGE`. -/
theorem C5_init_version_gate_witness :
    (mlx90632_init envInitC5 ⟨0, 0, []⟩).1 = ERANGE := by
  have h := (C5_init_version_gate envInitC5 ⟨0, 0, []⟩ 0x0505
      (by simp [envInitC5, MLX90632_EE_VERSION])
      (by norm_num)
      (by simp [envInitC5, MLX90632_REG_STATUS, MLX90632_EE_VERSION])
      (fun x => by simp [envInitC5])).2 (by decide)
  rw [h]
  decide

/-! ### Measurement type and burst timing (from mlx90632_extended_meas.c /
mlx90632.c) -/

/-- Read and decode the measurement type (`mlx90632_get_meas_type`). -/
def mlx90632_get_meas_type (e : Env) (s : St) : Int × St :=
  let r := mlx90632_i2c_read MLX90632_REG_CTRL e s
  if r.1.1 < 0 then (r.1.1, r.2)
  else
    let reg_ctrl := MLX90632_MTYP r.1.2
    if reg_ctrl ≠ MLX90632_MTYP_MEDICAL ∧ reg_ctrl ≠ MLX90632_MTYP_EXTENDED then
      (-EINVAL, r.2)
    else
      let reg_temp := MLX90632_CFG_PWR r.1.2
      if reg_temp = MLX90632_PWR_STATUS_SLEEP_STEP then (((reg_ctrl + 0x80 : Nat) : Int), r.2)
      else if reg_temp ≠ MLX90632_PWR_STATUS_CONTINUOUS then (-EINVAL, r.2)
      else ((reg_ctrl : Int), r.2)

/-- Read one timing-table entry and decode its refresh time in milliseconds
(`mlx90632_get_measurement_time`). -/
def mlx90632_get_measurement_time (meas : Nat) (e : Env) (s : St) : Int × St :=
  let r := mlx90632_i2c_read meas e s
  if r.1.1 < 0 then (r.1.1, r.2)
  else
    (((MLX90632_MEAS_MAX_TIME >>> ((r.1.2 &&& MLX90632_EE_REFRESH_RATE_MASK) >>> 8) : Nat) : Int),
     r.2)

/-- Total wait time for a full burst dataset
(`mlx90632_calculate_dataset_ready_time`). -/
def mlx90632_calculate_dataset_ready_time (e : Env) (s : St) : Int × St :=
  let m := mlx90632_get_meas_type e s
  if m.1 < 0 then (m.1, m.2)
  else if m.1 ≠ (MLX90632_MTYP_MEDICAL_BURST : Int) ∧
      m.1 ≠ (MLX90632_MTYP_EXTENDED_BURST : Int) then
    (-EINVAL, m.2)
  else if m.1 = (MLX90632_MTYP_MEDICAL_BURST : Int) then
    let t1 := mlx90632_get_measurement_time MLX90632_EE_MEDICAL_MEAS1 e m.2
    if t1.1 < 0 then (t1.1, t1.2)
    else
      let t2 := mlx90632_get_measurement_time MLX90632_EE_MEDICAL_MEAS2 e t1.2
      if t2.1 < 0 then (t2.1, t2.2)
      else (t1.1 + t2.1, t2.2)
  else
    let t1 := mlx90632_get_measurement_time MLX90632_EE_EXTENDED_MEAS1 e m.2
    if t1.1 < 0 then (t1.1, t1.2)
    else
      let t2 := mlx90632_get_measurement_time MLX90632_EE_EXTENDED_MEAS2 e t1.2
      if t2.1 < 0 then (t2.1, t2.2)
      else
        let t3 := mlx90632_get_measurement_time MLX90632_EE_EXTENDED_MEAS3 e t2.2
        if t3.1 < 0 then (t3.1, t3.2)
        else (t1.1 + t2.1 + t3.1, t3.2)

/-- C9: when the current measurement type decodes to a burst type and all
reads succeed, `mlx90632_calculate_dataset_ready_time` returns the sum over
the active timing-table entries (2 medical entries for medical burst, 3
extended entries for extended burst) of `2000 >> refresh_rate_code`, where
the code is bits 8–10 of each entry; when the type decodes to a continuous
type it returns `-EINVAL`. -/
theorem C9_calculate_dataset_ready_time (e : Env) (s0 : St) (c : Nat)
    (hc : e.rdR s0.nR MLX90632_REG_CTRL = (0, c)) (hcb : c < 65536) :
    (MLX90632_MTYP c = MLX90632_MTYP_MEDICAL →
      MLX90632_CFG_PWR c = MLX90632_PWR_STATUS_SLEEP_STEP →
      ∀ m1 m2 : Nat,
        e.rdR (s0.nR + 1) MLX90632_EE_MEDICAL_MEAS1 = (0, m1) → m1 < 65536 →
        e.rdR (s0.nR + 2) MLX90632_EE_MEDICAL_MEAS2 = (0, m2) → m2 < 65536 →
        mlx90632_calculate_dataset_ready_time e s0 =
          (((MLX90632_MEAS_MAX_TIME >>>
                ((m1 &&& MLX90632_EE_REFRESH_RATE_MASK) >>> 8) : Nat) : Int) +
             ((MLX90632_MEAS_MAX_TIME >>>
                ((m2 &&& MLX90632_EE_REFRESH_RATE_MASK) >>> 8) : Nat) : Int),
           ⟨s0.nR + 3, s0.nW,
            s0.tr ++ [Op.rd MLX90632_REG_CTRL, Op.rd MLX90632_EE_MEDICAL_MEAS1,
              Op.rd MLX90632_EE_MEDICAL_MEAS2]⟩)) ∧
    (MLX90632_MTYP c = MLX90632_MTYP_EXTENDED →
      MLX90632_CFG_PWR c = MLX90632_PWR_STATUS_SLEEP_STEP →
      ∀ m1 m2 m3 : Nat,
        e.rdR (s0.nR + 1) MLX90632_EE_EXTENDED_MEAS1 = (0, m1) → m1 < 65536 →
        e.rdR (s0.nR + 2) MLX90632_EE_EXTENDED_MEAS2 = (0, m2) → m2 < 65536 →
        e.rdR (s0.nR + 3) MLX90632_EE_EXTENDED_MEAS3 = (0, m3) → m3 < 65536 →
        mlx90632_calculate_dataset_ready_time e s0 =
          (((MLX90632_MEAS_MAX_TIME >>>
                ((m1 &&& MLX90632_EE_REFRESH_RATE_MASK) >>> 8) : Nat) : Int) +
             ((MLX90632_MEAS_MAX_TIME >>>
                ((m2 &&& MLX90632_EE_REFRESH_RATE_MASK) >>> 8) : Nat) : Int) +
             ((MLX90632_MEAS_MAX_TIME >>>
                ((m3 &&& MLX90632_EE_REFRESH_RATE_MASK) >>> 8) : Nat) : Int),
           ⟨s0.nR + 4, s0.nW,
            s0.tr ++ [Op.rd MLX90632_REG_CTRL, Op.rd MLX90632_EE_EXTENDED_MEAS1,
              Op.rd MLX90632_EE_EXTENDED_MEAS2, Op.rd MLX90632_EE_EXTENDED_MEAS3]⟩)) ∧
    ((MLX90632_MTYP c = MLX90632_MTYP_MEDICAL ∨ MLX90632_MTYP c = MLX90632_MTYP_EXTENDED) →
      MLX90632_CFG_PWR c = MLX90632_PWR_STATUS_CONTINUOUS →
      mlx90632_calculate_dataset_ready_time e s0 =
        (-EINVAL, ⟨s0.nR + 1, s0.nW, s0.tr ++ [Op.rd MLX90632_REG_CTRL]⟩)) := by
  refine ⟨?_, ?_, ?_⟩
  · intro hmt hpwr m1 m2 h1 hb1 h2 hb2
    have hmty : mlx90632_get_meas_type e s0 =
        (128, ⟨s0.nR + 1, s0.nW, s0.tr ++ [Op.rd MLX90632_REG_CTRL]⟩) := by
      simp [mlx90632_get_meas_type, mlx90632_i2c_read, hc, Nat.mod_eq_of_lt hcb, hmt,
        hpwr, MLX90632_MTYP_MEDICAL, MLX90632_MTYP_EXTENDED,
        MLX90632_PWR_STATUS_SLEEP_STEP]
    have ht1 : mlx90632_get_measurement_time MLX90632_EE_MEDICAL_MEAS1 e
        ⟨s0.nR + 1, s0.nW, s0.tr ++ [Op.rd MLX90632_REG_CTRL]⟩ =
        (((MLX90632_MEAS_MAX_TIME >>>
            ((m1 &&& MLX90632_EE_REFRESH_RATE_MASK) >>> 8) : Nat) : Int),
         ⟨s0.nR + 2, s0.nW,
          s0.tr ++ [Op.rd MLX90632_REG_CTRL, Op.rd MLX90632_EE_MEDICAL_MEAS1]⟩) := by
      simp [mlx90632_get_measurement_time, mlx90632_i2c_read, h1, Nat.mod_eq_of_lt hb1]
    have ht2 : mlx90632_get_measurement_time MLX90632_EE_MEDICAL_MEAS2 e
        ⟨s0.nR + 2, s0.nW,
         s0.tr ++ [Op.rd MLX90632_REG_CTRL, Op.rd MLX90632_EE_MEDICAL_MEAS1]⟩ =
        (((MLX90632_MEAS_MAX_TIME >>>
            ((m2 &&& MLX90632_EE_REFRESH_RATE_MASK) >>> 8) : Nat) : Int),
         ⟨s0.nR + 3, s0.nW,
          s0.tr ++ [Op.rd MLX90632_REG_CTRL, Op.rd MLX90632_EE_MEDICAL_MEAS1,
            Op.rd MLX90632_EE_MEDICAL_MEAS2]⟩) := by
      simp [mlx90632_get_measurement_time, mlx90632_i2c_read, h2, Nat.mod_eq_of_lt hb2]
    simp only [mlx90632_calculate_dataset_ready_time, hmty, ht1, ht2,
      MLX90632_MTYP_MEDICAL_BURST, MLX90632_MTYP_EXTENDED_BURST]
    norm_num [Int.ofNat_nonneg, not_lt.mpr (Int.ofNat_nonneg _)]
  · intro hmt hpwr m1 m2 m3 h1 hb1 h2 hb2 h3 hb3
    have hmty : mlx90632_get_meas_type e s0 =
        (145, ⟨s0.nR + 1, s0.nW, s0.tr ++ [Op.rd MLX90632_REG_CTRL]⟩) := by
      simp [mlx90632_get_meas_type, mlx90632_i2c_read, hc, Nat.mod_eq_of_lt hcb, hmt,
        hpwr, MLX90632_MTYP_MEDICAL, MLX90632_MTYP_EXTENDED,
        MLX90632_PWR_STATUS_SLEEP_STEP]
    have ht1 : mlx90632_get_measurement_time MLX90632_EE_EXTENDED_MEAS1 e
        ⟨s0.nR + 1, s0.nW, s0.tr ++ [Op.rd MLX90632_REG_CTRL]⟩ =
        (((MLX90632_MEAS_MAX_TIME >>>
            ((m1 &&& MLX90632_EE_REFRESH_RATE_MASK) >>> 8) : Nat) : Int),
         ⟨s0.nR + 2, s0.nW,
          s0.tr ++ [Op.rd MLX90632_REG_CTRL, Op.rd MLX90632_EE_EXTENDED_MEAS1]⟩) := by
      simp [mlx90632_get_measurement_time, mlx90632_i2c_read, h1, Nat.mod_eq_of_lt hb1]
    have ht2 : mlx90632_get_measurement_time MLX90632_EE_EXTENDED_MEAS2 e
        ⟨s0.nR + 2, s0.nW,
         s0.tr ++ [Op.rd MLX90632_REG_CTRL, Op.rd MLX90632_EE_EXTENDED_MEAS1]⟩ =
        (((MLX90632_MEAS_MAX_TIME >>>
            ((m2 &&& MLX90632_EE_REFRESH_RATE_MASK) >>> 8) : Nat) : Int),
         ⟨s0.nR + 3, s0.nW,
          s0.tr ++ [Op.rd MLX90632_REG_CTRL, Op.rd MLX90632_EE_EXTENDED_MEAS1,
            Op.rd MLX90632_EE_EXTENDED_MEAS2]⟩) := by
      simp [mlx90632_get_measurement_time, mlx90632_i2c_read, h2, Nat.mod_eq_of_lt hb2]
    have ht3 : mlx90632_get_measurement_time MLX90632_EE_EXTENDED_MEAS3 e
        ⟨s0.nR + 3, s0.nW,
         s0.tr ++ [Op.rd MLX90632_REG_CTRL, Op.rd MLX90632_EE_EXTENDED_MEAS1,
           Op.rd MLX90632_EE_EXTENDED_MEAS2]⟩ =
        (((MLX90632_MEAS_MAX_TIME >>>
            ((m3 &&& MLX90632_EE_REFRESH_RATE_MASK) >>> 8) : Nat) : Int),
         ⟨s0.nR + 4, s0.nW,
          s0.tr ++ [Op.rd MLX90632_REG_CTRL, Op.rd MLX90632_EE_EXTENDED_MEAS1,
            Op.rd MLX90632_EE_EXTENDED_MEAS2, Op.rd MLX90632_EE_EXTENDED_MEAS3]⟩) := by
      simp [mlx90632_get_measurement_time, mlx90632_i2c_read, h3, Nat.mod_eq_of_lt hb3]
    simp only [mlx90632_calculate_dataset_ready_time, hmty, ht1, ht2, ht3,
      MLX90632_MTYP_MEDICAL_BURST, MLX90632_MTYP_EXTENDED_BURST]
    norm_num [Int.ofNat_nonneg, not_lt.mpr (Int.ofNat_nonneg _)]
  · intro hmt hpwr
    have hmty : mlx90632_get_meas_type e s0 =
        ((MLX90632_MTYP c : Int),
         ⟨s0.nR + 1, s0.nW, s0.tr ++ [Op.rd MLX90632_REG_CTRL]⟩) := by
      rcases hmt with hmt | hmt <;>
        simp [mlx90632_get_meas_type, mlx90632_i2c_read, hc, Nat.mod_eq_of_lt hcb, hmt,
          hpwr, MLX90632_MTYP_MEDICAL, MLX90632_MTYP_EXTENDED,
          MLX90632_PWR_STATUS_SLEEP_STEP, MLX90632_PWR_STATUS_CONTINUOUS]
    simp only [mlx90632_calculate_dataset_ready_time, hmty,
      MLX90632_MTYP_MEDICAL_BURST, MLX90632_MTYP_EXTENDED_BURST]
    rcases hmt with hmt | hmt <;>
      norm_num [hmt, MLX90632_MTYP_MEDICAL, MLX90632_MTYP_EXTENDED]

/-- Witness environment for C9: control register reads medical sleeping-step
(power-mode bits = 2), timing entries read rate code 2 in bits 8–10. -/
def envReadyTimeC9 : Env :=
  ⟨fun _ a => (0, if a = MLX90632_REG_CTRL then 2 else 0x0200), fun _ _ _ => 0⟩

/-- Witness for C9: in medical burst mode with rate code 2 in both entries the
dataset ready time is 500 + 500 ms. -/
theorem C9_calculate_dataset_ready_time_witness :
    (mlx90632_calculate_dataset_ready_time envReadyTimeC9 ⟨0, 0, []⟩).1 = 1000 := by
  have h := (C9_calculate_dataset_ready_time envReadyTimeC9 ⟨0, 0, []⟩ 2
      (by simp [envReadyTimeC9]) (by norm_num)).1
      (by decide) (by decide) 0x0200 0x0200
      (by simp [envReadyTimeC9, MLX90632_EE_MEDICAL_MEAS1, MLX90632_REG_CTRL])
      (by norm_num)
      (by simp [envReadyTimeC9, MLX90632_EE_MEDICAL_MEAS2, MLX90632_REG_CTRL])
      (by norm_num)
  rw [h]
  decide

/-! ### Burst trigger and medical raw reads (from mlx90632.c) -/

/-- The device-busy polling loop of `mlx90632_start_measurement_burst` (same
bounded retry as the data-ready loop, but testing busy-clear). -/
def pollNotBusy (e : Env) : Nat → St → PollRes × St
  | 0, s => (.expired, s)
  | t + 1, s =>
      let r := mlx90632_i2c_read MLX90632_REG_STATUS e s
      if r.1.1 < 0 then (.err r.1.1, r.2)
      else if r.1.2 &&& MLX90632_STAT_BUSY = 0 then (.ready r.1.2, r.2)
      else pollNotBusy e t (usleep 10000 11000 r.2)

/-- Trigger a burst (sleeping-step) measurement and wait for completion
(`mlx90632_start_measurement_burst`). -/
def mlx90632_start_measurement_burst (e : Env) (s : St) : Int × St :=
  let r := mlx90632_i2c_read MLX90632_REG_CTRL e s
  if r.1.1 < 0 then (r.1.1, r.2)
  else
    let w := mlx90632_i2c_write MLX90632_REG_CTRL (r.1.2 ||| MLX90632_START_BURST_MEAS) e r.2
    if w.1 < 0 then (w.1, w.2)
    else
      let c := mlx90632_calculate_dataset_ready_time e w.2
      if c.1 < 0 then (c.1, c.2)
      else
        match pollNotBusy e MLX90632_MAX_NUMBER_MESUREMENT_READ_TRIES (msleep c.1 c.2) with
        | (.err ret, s3) => (ret, s3)
        | (.ready _, s3) => (0, s3)
        | (.expired, s3) => (-ETIMEDOUT, s3)

/-- Medical ambient raw read (`mlx90632_read_temp_ambient_raw`); the two
`Option ℤ` components are the values written through the out-pointers. -/
def mlx90632_read_temp_ambient_raw (e : Env) (s : St) :
    (Int × Option ℤ × Option ℤ) × St :=
  let r1 := mlx90632_i2c_read (MLX90632_RAM_3 1) e s
  if r1.1.1 < 0 then ((r1.1.1, none, none), r1.2)
  else
    let r2 := mlx90632_i2c_read (MLX90632_RAM_3 2) e r1.2
    if r2.1.1 < 0 then ((r2.1.1, some (toInt16 r1.1.2), none), r2.2)
    else ((r2.1.1, some (toInt16 r1.1.2), some (toInt16 r2.1.2)), r2.2)

/-- Medical object raw read (`mlx90632_read_temp_object_raw`); the channels
come from `mlx90632_channel_new_select`, whose outputs are only consumed when
it returned 0 (the `getD` default is dead code for the error case). -/
def mlx90632_read_temp_object_raw (start_measurement_ret : ℤ) (e : Env) (s : St) :
    (Int × Option ℤ × Option ℤ) × St :=
  let sel := mlx90632_channel_new_select start_measurement_ret
  if sel.1 ≠ 0 then ((-EINVAL, none, none), s)
  else
    let channel := (sel.2.getD (0, 0)).1
    let channel_old := (sel.2.getD (0, 0)).2
    let r1 := mlx90632_i2c_read (MLX90632_RAM_2 channel) e s
    if r1.1.1 < 0 then ((r1.1.1, none, none), r1.2)
    else
      let r2 := mlx90632_i2c_read (MLX90632_RAM_1 channel) e r1.2
      if r2.1.1 < 0 then ((r2.1.1, none, none), r2.2)
      else
        let object_new := Int.tdiv (toInt16 r1.1.2 + toInt16 r2.1.2) 2
        let r3 := mlx90632_i2c_read (MLX90632_RAM_2 channel_old) e r2.2
        if r3.1.1 < 0 then ((r3.1.1, some object_new, none), r3.2)
        else
          let r4 := mlx90632_i2c_read (MLX90632_RAM_1 channel_old) e r3.2
          if r4.1.1 < 0 then ((r4.1.1, some object_new, none), r4.2)
          else
            ((r4.1.1, some object_new,
              some (Int.tdiv (toInt16 r3.1.2 + toInt16 r4.1.2) 2)), r4.2)

/-- Burst raw acquisition (`mlx90632_read_temp_raw_burst`); result components
are (return, ambient_new, ambient_old, object_new, object_old). -/
def mlx90632_read_temp_raw_burst (e : Env) (s : St) :
    (Int × Option ℤ × Option ℤ × Option ℤ × Option ℤ) × St :=
  let m := mlx90632_start_measurement_burst e s
  if m.1 < 0 then ((m.1, none, none, none, none), m.2)
  else
    let a := mlx90632_read_temp_ambient_raw e m.2
    if a.1.1 < 0 then ((a.1.1, a.1.2.1, a.1.2.2, none, none), a.2)
    else
      let o := mlx90632_read_temp_object_raw 2 e a.2
      ((o.1.1, a.1.2.1, a.1.2.2, o.1.2.1, o.1.2.2), o.2)

/-- C10: after a successful burst trigger, `mlx90632_read_temp_raw_burst`
always reads the object raw values with the channel assignment fixed to
(new = 2, old = 1) — it passes the constant position 2 to the object-read
path — regardless of the cycle position the device's status register
actually reported during the trigger (the environment's status values are
unconstrained).  The object reads address RAM_2(2), RAM_1(2), RAM_2(1),
RAM_1(1) in that order. -/
theorem C10_read_temp_raw_burst_fixed_channel (e : Env) (s0 : St) (s1 : St)
    (hb : 0 ≤ (mlx90632_start_measurement_burst e s0).1)
    (hs1 : (mlx90632_start_measurement_burst e s0).2 = s1)
    (a1 a2 b1 b2 b3 b4 : Nat)
    (h1 : e.rdR s1.nR (MLX90632_RAM_3 1) = (0, a1))
    (h2 : e.rdR (s1.nR + 1) (MLX90632_RAM_3 2) = (0, a2))
    (h3 : e.rdR (s1.nR + 2) (MLX90632_RAM_2 2) = (0, b1))
    (h4 : e.rdR (s1.nR + 3) (MLX90632_RAM_1 2) = (0, b2))
    (h5 : e.rdR (s1.nR + 4) (MLX90632_RAM_2 1) = (0, b3))
    (h6 : e.rdR (s1.nR + 5) (MLX90632_RAM_1 1) = (0, b4)) :
    mlx90632_read_temp_raw_burst e s0 =
      ((0, some (toInt16 a1), some (toInt16 a2),
        some (Int.tdiv (toInt16 b1 + toInt16 b2) 2),
        some (Int.tdiv (toInt16 b3 + toInt16 b4) 2)),
       ⟨s1.nR + 6, s1.nW,
        s1.tr ++ [Op.rd (MLX90632_RAM_3 1), Op.rd (MLX90632_RAM_3 2),
          Op.rd (MLX90632_RAM_2 2), Op.rd (MLX90632_RAM_1 2),
          Op.rd (MLX90632_RAM_2 1), Op.rd (MLX90632_RAM_1 1)]⟩) := by
  have hm : ∀ w : Nat, toInt16 (w % 65536) = toInt16 w := by
    intro w; simp [toInt16]
  have hsel : mlx90632_channel_new_select 2 = (0, some (2, 1)) := rfl
  have hamb : mlx90632_read_temp_ambient_raw e s1 =
      ((0, some (toInt16 a1), some (toInt16 a2)),
       ⟨s1.nR + 2, s1.nW, s1.tr ++ [Op.rd (MLX90632_RAM_3 1), Op.rd (MLX90632_RAM_3 2)]⟩) := by
    simp only [mlx90632_read_temp_ambient_raw, mlx90632_i2c_read, h1, h2]
    norm_num [hm, List.append_assoc]
  have hobj : mlx90632_read_temp_object_raw 2 e
      ⟨s1.nR + 2, s1.nW, s1.tr ++ [Op.rd (MLX90632_RAM_3 1), Op.rd (MLX90632_RAM_3 2)]⟩ =
      ((0, some (Int.tdiv (toInt16 b1 + toInt16 b2) 2),
        some (Int.tdiv (toInt16 b3 + toInt16 b4) 2)),
       ⟨s1.nR + 6, s1.nW,
        s1.tr ++ [Op.rd (MLX90632_RAM_3 1), Op.rd (MLX90632_RAM_3 2),
          Op.rd (MLX90632_RAM_2 2), Op.rd (MLX90632_RAM_1 2),
          Op.rd (MLX90632_RAM_2 1), Op.rd (MLX90632_RAM_1 1)]⟩) := by
    simp only [mlx90632_read_temp_object_raw, hsel]
    norm_num
    simp only [mlx90632_i2c_read]
    norm_num [(by omega : s1.nR + 2 + 1 = s1.nR + 3), (by omega : s1.nR + 3 + 1 = s1.nR + 4),
      (by omega : s1.nR + 4 + 1 = s1.nR + 5)]
    simp only [h3, h4, h5, h6]
    norm_num [hm, List.append_assoc]
  simp only [mlx90632_read_temp_raw_burst, hs1, not_lt.mpr hb, if_false, hamb]
  norm_num [hobj]

/-- Witness environment for C10: control register in medical sleeping-step
mode, timing entries at the slowest code, distinct object values in the four
medical RAM slots. -/
def envBurstC10 : Env :=
  ⟨fun _ a =>
      (0, if a = MLX90632_REG_CTRL then 2
        else if a = MLX90632_RAM_3 1 then 100
        else if a = MLX90632_RAM_3 2 then 200
        else if a = MLX90632_RAM_2 2 then 301
        else if a = MLX90632_RAM_1 2 then 299
        else if a = MLX90632_RAM_2 1 then 401
        else if a = MLX90632_RAM_1 1 then 399
        else 0),
    fun _ _ _ => 0⟩

/-- Witness for C10: the object values come from channels (2, 1). -/
theorem C10_read_temp_raw_burst_fixed_channel_witness :
    (mlx90632_read_temp_raw_burst envBurstC10 ⟨0, 0, []⟩).1 =
      (0, some 100, some 200, some 300, some 400) := by
  have h := C10_read_temp_raw_burst_fixed_channel envBurstC10 ⟨0, 0, []⟩
      ⟨5, 1, [Op.rd MLX90632_REG_CTRL, Op.wr MLX90632_REG_CTRL 2050,
        Op.rd MLX90632_REG_CTRL, Op.rd MLX90632_EE_MEDICAL_MEAS1,
        Op.rd MLX90632_EE_MEDICAL_MEAS2, Op.mslp 4000, Op.rd MLX90632_REG_STATUS]⟩
      (by decide) (by decide) 100 200 301 299 401 399
      (by decide) (by decide) (by decide) (by decide) (by decide) (by decide)
  rw [h]
  decide

/-! ### Extended table walk (from mlx90632_extended_meas.c) -/

/-- Outcome of the extended trigger loop. -/
inductive TrigOut where
  | errOut : Int → TrigOut
  | okOut : TrigOut
  | exhausted : TrigOut
deriving DecidableEq, Repr

/-- The trigger loop of `mlx90632_read_temp_raw_extended`
(`while (tries-- > 0) { r = start_measurement(); if r < 0 return r;
if r == 19 break; }`). -/
def extTriggerLoop (e : Env) : Nat → St → TrigOut × St
  | 0, s => (.exhausted, s)
  | t + 1, s =>
      let m := mlx90632_start_measurement e s
      if m.1 < 0 then (.errOut m.1, m.2)
      else if m.1 = 19 then (.okOut, m.2)
      else extTriggerLoop e t m.2

/-- The read phase after the trigger loop of `mlx90632_read_temp_raw_extended`
(ambient then object extended reads, propagating errors). -/
def extReadPhase (e : Env) (s : St) : (Int × Option ℤ × Option ℤ × Option ℤ) × St :=
  let a := mlx90632_read_temp_ambient_raw_extended e s
  if a.1.1 < 0 then ((a.1.1, a.1.2.1, a.1.2.2, none), a.2)
  else
    let o := mlx90632_read_temp_object_raw_extended e a.2
    ((o.1.1, a.1.2.1, a.1.2.2, o.1.2), o.2)

/-- Extended raw acquisition (`mlx90632_read_temp_raw_extended`); result
components are (return, ambient_new, ambient_old, object_new). -/
def mlx90632_read_temp_raw_extended (e : Env) (s : St) :
    (Int × Option ℤ × Option ℤ × Option ℤ) × St :=
  match extTriggerLoop e 3 s with
  | (.errOut r, s1) => ((r, none, none, none), s1)
  | (.exhausted, s1) => ((-ETIMEDOUT, none, none, none), s1)
  | (.okOut, s1) => extReadPhase e s1

/-- C8: `mlx90632_read_temp_raw_extended` issues the trigger-and-wait sequence
(`mlx90632_start_measurement`) at most 3 times, stops triggering as soon as a
trigger reports cycle position 19 (continuing with the read phase from that
point), returns `-ETIMEDOUT` when none of the 3 attempts reports 19, and
propagates a negative trigger result immediately without further attempts. -/
theorem C8_read_temp_raw_extended_trigger_walk (e : Env) (s0 : St)
    (p0 p1 p2 : Int × St)
    (hp0 : mlx90632_start_measurement e s0 = p0)
    (hp1 : mlx90632_start_measurement e p0.2 = p1)
    (hp2 : mlx90632_start_measurement e p1.2 = p2) :
    (p0.1 < 0 →
      mlx90632_read_temp_raw_extended e s0 = ((p0.1, none, none, none), p0.2)) ∧
    (0 ≤ p0.1 → p0.1 ≠ 19 → p1.1 < 0 →
      mlx90632_read_temp_raw_extended e s0 = ((p1.1, none, none, none), p1.2)) ∧
    (0 ≤ p0.1 → p0.1 ≠ 19 → 0 ≤ p1.1 → p1.1 ≠ 19 → p2.1 < 0 →
      mlx90632_read_temp_raw_extended e s0 = ((p2.1, none, none, none), p2.2)) ∧
    (0 ≤ p0.1 → p0.1 ≠ 19 → 0 ≤ p1.1 → p1.1 ≠ 19 → 0 ≤ p2.1 → p2.1 ≠ 19 →
      mlx90632_read_temp_raw_extended e s0 = ((-ETIMEDOUT, none, none, none), p2.2)) ∧
    (p0.1 = 19 → mlx90632_read_temp_raw_extended e s0 = extReadPhase e p0.2) ∧
    (0 ≤ p0.1 → p0.1 ≠ 19 → p1.1 = 19 →
      mlx90632_read_temp_raw_extended e s0 = extReadPhase e p1.2) ∧
    (0 ≤ p0.1 → p0.1 ≠ 19 → 0 ≤ p1.1 → p1.1 ≠ 19 → p2.1 = 19 →
      mlx90632_read_temp_raw_extended e s0 = extReadPhase e p2.2) := by
  refine ⟨?_, ?_, ?_, ?_, ?_, ?_, ?_⟩
  · intro h0
    simp [mlx90632_read_temp_raw_extended, extTriggerLoop, hp0, h0]
  · intro h0 h0n h1
    simp [mlx90632_read_temp_raw_extended, extTriggerLoop, hp0, hp1,
      not_lt.mpr h0, h0n, h1]
  · intro h0 h0n h1 h1n h2
    simp [mlx90632_read_temp_raw_extended, extTriggerLoop, hp0, hp1, hp2,
      not_lt.mpr h0, h0n, not_lt.mpr h1, h1n, h2]
  · intro h0 h0n h1 h1n h2 h2n
    simp [mlx90632_read_temp_raw_extended, extTriggerLoop, hp0, hp1, hp2,
      not_lt.mpr h0, h0n, not_lt.mpr h1, h1n, not_lt.mpr h2, h2n]
  · intro h0
    have h0nonneg : ¬ p0.1 < 0 := by rw [h0]; decide
    simp [mlx90632_read_temp_raw_extended, extTriggerLoop, hp0, h0nonneg, h0]
  · intro h0 h0n h1
    have h1nonneg : ¬ p1.1 < 0 := by rw [h1]; decide
    simp [mlx90632_read_temp_raw_extended, extTriggerLoop, hp0, hp1,
      not_lt.mpr h0, h0n, h1nonneg, h1]
  · intro h0 h0n h1 h1n h2
    have h2nonneg : ¬ p2.1 < 0 := by rw [h2]; decide
    simp [mlx90632_read_temp_raw_extended, extTriggerLoop, hp0, hp1, hp2,
      not_lt.mpr h0, h0n, not_lt.mpr h1, h1n, h2nonneg, h2]

/-- Witness environment for C8: the status register always shows data ready
with cycle position 1, so every trigger returns 1 and the table walk times
out after its 3 attempts. -/
def envExtTimeoutC8 : Env := ⟨fun _ _ => (0, 5), fun _ _ _ => 0⟩

/-- Witness for C8: three triggers reporting position 1 yield `-ETIMEDOUT`. -/
theorem C8_read_temp_raw_extended_trigger_walk_witness :
    (mlx90632_read_temp_raw_extended envExtTimeoutC8 ⟨0, 0, []⟩).1.1 = -ETIMEDOUT := by
  have h := (C8_read_temp_raw_extended_trigger_walk envExtTimeoutC8 ⟨0, 0, []⟩
      (mlx90632_start_measurement envExtTimeoutC8 ⟨0, 0, []⟩)
      (mlx90632_start_measurement envExtTimeoutC8
        (mlx90632_start_measurement envExtTimeoutC8 ⟨0, 0, []⟩).2)
      (mlx90632_start_measurement envExtTimeoutC8
        (mlx90632_start_measurement envExtTimeoutC8
          (mlx90632_start_measurement envExtTimeoutC8 ⟨0, 0, []⟩).2).2)
      rfl rfl rfl).2.2.2.1
      (by decide) (by decide) (by decide) (by decide) (by decide) (by decide)
  rw [h]

/-! ### EEPROM calibration writer (from mlx90632.c) -/

/-- Unlock the EEPROM for writing (`mlx90632_unlock_eeporm`, sic). -/
def mlx90632_unlock_eeporm (e : Env) (s : St) : Int × St :=
  mlx90632_i2c_write 0x3005 MLX90632_EEPROM_WRITE_KEY e s

/-- The `while (ret >= 0 && reg_status & MLX90632_STAT_EE_BUSY)` loop of
`mlx90632_wait_for_eeprom_not_busy`; `fuel` bounds the unbounded C loop (the
theorems below only use environments where the loop exits within fuel). -/
def eeBusyLoop (e : Env) : Nat → Int × Nat → St → Int × St
  | 0, rv, s => (rv.1, s)
  | f + 1, rv, s =>
      if 0 ≤ rv.1 ∧ rv.2 &&& MLX90632_STAT_EE_BUSY ≠ 0 then
        let r := mlx90632_i2c_read MLX90632_REG_STATUS e s
        eeBusyLoop e f (r.1.1, r.1.2) r.2
      else (rv.1, s)

/-- Poll the status register until the EEPROM-busy bit clears
(`mlx90632_wait_for_eeprom_not_busy`). -/
def mlx90632_wait_for_eeprom_not_busy (fuel : Nat) (e : Env) (s : St) : Int × St :=
  let r := mlx90632_i2c_read MLX90632_REG_STATUS e s
  eeBusyLoop e fuel (r.1.1, r.1.2) r.2

/-- Erase one EEPROM cell (`mlx90632_erase_eeprom`): unlock, write 0, wait. -/
def mlx90632_erase_eeprom (fuel : Nat) (address : Nat) (e : Env) (s : St) : Int × St :=
  let u := mlx90632_unlock_eeporm e s
  if u.1 < 0 then (u.1, u.2)
  else
    let w := mlx90632_i2c_write address 0x00 e u.2
    if w.1 < 0 then (w.1, w.2)
    else mlx90632_wait_for_eeprom_not_busy fuel e w.2

/-- Write one EEPROM cell (`mlx90632_write_eeprom`): erase, unlock, write,
wait. -/
def mlx90632_write_eeprom (fuel : Nat) (address data : Nat) (e : Env) (s : St) : Int × St :=
  let er := mlx90632_erase_eeprom fuel address e s
  if er.1 < 0 then (er.1, er.2)
  else
    let u := mlx90632_unlock_eeporm e er.2
    if u.1 < 0 then (u.1, u.2)
    else
      let w := mlx90632_i2c_write address data e u.2
      if w.1 < 0 then (w.1, w.2)
      else mlx90632_wait_for_eeprom_not_busy fuel e w.2

/-- The second-entry half of `mlx90632_set_refresh_rate` (the statements after
the first-entry conditional write in the source). -/
def set_refresh_rate_meas2 (fuel measRate : Nat) (e : Env) (s : St) : Int × St :=
  let r2 := mlx90632_i2c_read MLX90632_EE_MEDICAL_MEAS2 e s
  if r2.1.1 < 0 then (r2.1.1, r2.2)
  else
    let new_value := MLX90632_NEW_REG_VALUE r2.1.2 measRate
    if r2.1.2 ≠ new_value then
      mlx90632_write_eeprom fuel MLX90632_EE_MEDICAL_MEAS2 new_value e r2.2
    else (r2.1.1, r2.2)

/-- Set the refresh-rate sub-field of both medical timing-table entries
(`mlx90632_set_refresh_rate`). -/
def mlx90632_set_refresh_rate (fuel measRate : Nat) (e : Env) (s : St) : Int × St :=
  let r1 := mlx90632_i2c_read MLX90632_EE_MEDICAL_MEAS1 e s
  if r1.1.1 < 0 then (r1.1.1, r1.2)
  else
    let new_value := MLX90632_NEW_REG_VALUE r1.1.2 measRate
    if r1.1.2 ≠ new_value then
      let w := mlx90632_write_eeprom fuel MLX90632_EE_MEDICAL_MEAS1 new_value e r1.2
      if w.1 < 0 then (w.1, w.2)
      else set_refresh_rate_meas2 fuel measRate e w.2
    else set_refresh_rate_meas2 fuel measRate e r1.2

/-- Recognizer for i2c write operations in a trace. -/
def isWriteOp : Op → Bool
  | Op.wr _ _ => true
  | _ => false

/-- The EEPROM busy-wait returns immediately when the first status read shows
the busy bit clear (for any fuel). -/
theorem wait_not_busy_immediate (fuel : Nat) (e : Env) (s : St) (sv : Nat)
    (h : e.rdR s.nR MLX90632_REG_STATUS = (0, sv)) (hsv : sv < 65536)
    (hb : sv &&& MLX90632_STAT_EE_BUSY = 0) :
    mlx90632_wait_for_eeprom_not_busy fuel e s =
      (0, ⟨s.nR + 1, s.nW, s.tr ++ [Op.rd MLX90632_REG_STATUS]⟩) := by
  cases fuel <;>
    simp [mlx90632_wait_for_eeprom_not_busy, eeBusyLoop, mlx90632_i2c_read, h,
      Nat.mod_eq_of_lt hsv, hb]

/-- A fully successful EEPROM write performs exactly
unlock → erase → busy-wait → unlock → write → busy-wait. -/
theorem write_eeprom_success (fuel : Nat) (address data : Nat) (e : Env) (s : St)
    (sv1 sv2 : Nat)
    (hu1 : e.wrR s.nW 0x3005 MLX90632_EEPROM_WRITE_KEY = 0)
    (he : e.wrR (s.nW + 1) address 0 = 0)
    (hs1 : e.rdR s.nR MLX90632_REG_STATUS = (0, sv1)) (hsv1 : sv1 < 65536)
    (hb1 : sv1 &&& MLX90632_STAT_EE_BUSY = 0)
    (hu2 : e.wrR (s.nW + 2) 0x3005 MLX90632_EEPROM_WRITE_KEY = 0)
    (hw : e.wrR (s.nW + 3) address data = 0)
    (hs2 : e.rdR (s.nR + 1) MLX90632_REG_STATUS = (0, sv2)) (hsv2 : sv2 < 65536)
    (hb2 : sv2 &&& MLX90632_STAT_EE_BUSY = 0) :
    mlx90632_write_eeprom fuel address data e s =
      (0, ⟨s.nR + 2, s.nW + 4,
        s.tr ++ [Op.wr 0x3005 MLX90632_EEPROM_WRITE_KEY, Op.wr address 0,
          Op.rd MLX90632_REG_STATUS, Op.wr 0x3005 MLX90632_EEPROM_WRITE_KEY,
          Op.wr address data, Op.rd MLX90632_REG_STATUS]⟩) := by
  have herase : mlx90632_erase_eeprom fuel address e s =
      (0, ⟨s.nR + 1, s.nW + 2,
        s.tr ++ [Op.wr 0x3005 MLX90632_EEPROM_WRITE_KEY, Op.wr address 0,
          Op.rd MLX90632_REG_STATUS]⟩) := by
    have hwt := wait_not_busy_immediate fuel e
      ⟨s.nR, s.nW + 2,
       s.tr ++ [Op.wr 0x3005 MLX90632_EEPROM_WRITE_KEY, Op.wr address 0]⟩ sv1
      (by simpa using hs1) hsv1 hb1
    simp only [mlx90632_erase_eeprom, mlx90632_unlock_eeporm, mlx90632_i2c_write,
      hu1, he] at *
    norm_num [List.append_assoc] at hwt ⊢
    rw [show (⟨s.nR, s.nW + 1 + 1,
        s.tr ++ [Op.wr 0x3005 MLX90632_EEPROM_WRITE_KEY, Op.wr address 0]⟩ : St) =
        ⟨s.nR, s.nW + 2,
        s.tr ++ [Op.wr 0x3005 MLX90632_EEPROM_WRITE_KEY, Op.wr address 0]⟩ from by norm_num]
    rw [hwt]
  have hwt2 := wait_not_busy_immediate fuel e
    ⟨s.nR + 1, s.nW + 4,
     s.tr ++ [Op.wr 0x3005 MLX90632_EEPROM_WRITE_KEY, Op.wr address 0,
       Op.rd MLX90632_REG_STATUS, Op.wr 0x3005 MLX90632_EEPROM_WRITE_KEY,
       Op.wr address data]⟩ sv2
    (by simpa using hs2) hsv2 hb2
  simp only [mlx90632_write_eeprom, herase, mlx90632_unlock_eeporm, mlx90632_i2c_write,
    hu2, hw]
  norm_num [List.append_assoc] at hwt2 ⊢
  rw [show (⟨s.nR + 1, s.nW + 2 + 1 + 1,
      s.tr ++ [Op.wr 0x3005 MLX90632_EEPROM_WRITE_KEY, Op.wr address 0,
        Op.rd MLX90632_REG_STATUS, Op.wr 0x3005 MLX90632_EEPROM_WRITE_KEY,
        Op.wr address data]⟩ : St) =
      ⟨s.nR + 1, s.nW + 4,
      s.tr ++ [Op.wr 0x3005 MLX90632_EEPROM_WRITE_KEY, Op.wr address 0,
        Op.rd MLX90632_REG_STATUS, Op.wr 0x3005 MLX90632_EEPROM_WRITE_KEY,
        Op.wr address data]⟩ from by norm_num]
  rw [hwt2]

/-- C6: for every requested refresh rate, `mlx90632_set_refresh_rate` issues
zero unlock, erase or write operations for a timing-table entry whose
computed new register value equals the value currently read (the only device
access for such an entry is its initial read); when the values differ, the
full unlock → erase → busy-wait → unlock → write → busy-wait sequence is
performed for that entry. -/
theorem C6_set_refresh_rate_skip_or_write (fuel measRate : Nat) (e : Env) (s0 : St)
    (m1 : Nat) (h1 : e.rdR s0.nR MLX90632_EE_MEDICAL_MEAS1 = (0, m1)) (hb1 : m1 < 65536) :
    (MLX90632_NEW_REG_VALUE m1 measRate = m1 →
      ∀ m2 : Nat, e.rdR (s0.nR + 1) MLX90632_EE_MEDICAL_MEAS2 = (0, m2) → m2 < 65536 →
      MLX90632_NEW_REG_VALUE m2 measRate = m2 →
      mlx90632_set_refresh_rate fuel measRate e s0 =
        (0, ⟨s0.nR + 2, s0.nW,
          s0.tr ++ [Op.rd MLX90632_EE_MEDICAL_MEAS1, Op.rd MLX90632_EE_MEDICAL_MEAS2]⟩) ∧
      ([Op.rd MLX90632_EE_MEDICAL_MEAS1,
        Op.rd MLX90632_EE_MEDICAL_MEAS2].filter isWriteOp) = []) ∧
    (MLX90632_NEW_REG_VALUE m1 measRate ≠ m1 →
      e.wrR s0.nW 0x3005 MLX90632_EEPROM_WRITE_KEY = 0 →
      e.wrR (s0.nW + 1) MLX90632_EE_MEDICAL_MEAS1 0 = 0 →
      ∀ sv1 : Nat, e.rdR (s0.nR + 1) MLX90632_REG_STATUS = (0, sv1) → sv1 < 65536 →
        sv1 &&& MLX90632_STAT_EE_BUSY = 0 →
      e.wrR (s0.nW + 2) 0x3005 MLX90632_EEPROM_WRITE_KEY = 0 →
      e.wrR (s0.nW + 3) MLX90632_EE_MEDICAL_MEAS1 (MLX90632_NEW_REG_VALUE m1 measRate) = 0 →
      ∀ sv2 : Nat, e.rdR (s0.nR + 2) MLX90632_REG_STATUS = (0, sv2) → sv2 < 65536 →
        sv2 &&& MLX90632_STAT_EE_BUSY = 0 →
      ∀ m2 : Nat, e.rdR (s0.nR + 3) MLX90632_EE_MEDICAL_MEAS2 = (0, m2) → m2 < 65536 →
      MLX90632_NEW_REG_VALUE m2 measRate = m2 →
      mlx90632_set_refresh_rate fuel measRate e s0 =
        (0, ⟨s0.nR + 4, s0.nW + 4,
          s0.tr ++ [Op.rd MLX90632_EE_MEDICAL_MEAS1,
            Op.wr 0x3005 MLX90632_EEPROM_WRITE_KEY,
            Op.wr MLX90632_EE_MEDICAL_MEAS1 0,
            Op.rd MLX90632_REG_STATUS,
            Op.wr 0x3005 MLX90632_EEPROM_WRITE_KEY,
            Op.wr MLX90632_EE_MEDICAL_MEAS1 (MLX90632_NEW_REG_VALUE m1 measRate),
            Op.rd MLX90632_REG_STATUS,
            Op.rd MLX90632_EE_MEDICAL_MEAS2]⟩)) ∧
    (MLX90632_NEW_REG_VALUE m1 measRate = m1 →
      ∀ m2 : Nat, e.rdR (s0.nR + 1) MLX90632_EE_MEDICAL_MEAS2 = (0, m2) → m2 < 65536 →
      MLX90632_NEW_REG_VALUE m2 measRate ≠ m2 →
      e.wrR s0.nW 0x3005 MLX90632_EEPROM_WRITE_KEY = 0 →
      e.wrR (s0.nW + 1) MLX90632_EE_MEDICAL_MEAS2 0 = 0 →
      ∀ sv1 : Nat, e.rdR (s0.nR + 2) MLX90632_REG_STATUS = (0, sv1) → sv1 < 65536 →
        sv1 &&& MLX90632_STAT_EE_BUSY = 0 →
      e.wrR (s0.nW + 2) 0x3005 MLX90632_EEPROM_WRITE_KEY = 0 →
      e.wrR (s0.nW + 3) MLX90632_EE_MEDICAL_MEAS2 (MLX90632_NEW_REG_VALUE m2 measRate) = 0 →
      ∀ sv2 : Nat, e.rdR (s0.nR + 3) MLX90632_REG_STATUS = (0, sv2) → sv2 < 65536 →
        sv2 &&& MLX90632_STAT_EE_BUSY = 0 →
      mlx90632_set_refresh_rate fuel measRate e s0 =
        (0, ⟨s0.nR + 4, s0.nW + 4,
          s0.tr ++ [Op.rd MLX90632_EE_MEDICAL_MEAS1, Op.rd MLX90632_EE_MEDICAL_MEAS2,
            Op.wr 0x3005 MLX90632_EEPROM_WRITE_KEY,
            Op.wr MLX90632_EE_MEDICAL_MEAS2 0,
            Op.rd MLX90632_REG_STATUS,
            Op.wr 0x3005 MLX90632_EEPROM_WRITE_KEY,
            Op.wr MLX90632_EE_MEDICAL_MEAS2 (MLX90632_NEW_REG_VALUE m2 measRate),
            Op.rd MLX90632_REG_STATUS]⟩)) := by
  refine ⟨?_, ?_, ?_⟩
  · intro heq1 m2 h2 hb2 heq2
    have htail : set_refresh_rate_meas2 fuel measRate e
        ⟨s0.nR + 1, s0.nW, s0.tr ++ [Op.rd MLX90632_EE_MEDICAL_MEAS1]⟩ =
        (0, ⟨s0.nR + 2, s0.nW,
          s0.tr ++ [Op.rd MLX90632_EE_MEDICAL_MEAS1, Op.rd MLX90632_EE_MEDICAL_MEAS2]⟩) := by
      simp [set_refresh_rate_meas2, mlx90632_i2c_read, h2, Nat.mod_eq_of_lt hb2, heq2]
    refine ⟨?_, by decide⟩
    simp [mlx90632_set_refresh_rate, mlx90632_i2c_read, h1, Nat.mod_eq_of_lt hb1,
      heq1, htail]
  · intro hne1 hu1 he sv1 hs1 hsv1 hbb1 hu2 hwv sv2 hs2 hsv2 hbb2 m2 h2 hb2 heq2
    have hwr := write_eeprom_success fuel MLX90632_EE_MEDICAL_MEAS1
      (MLX90632_NEW_REG_VALUE m1 measRate) e
      ⟨s0.nR + 1, s0.nW, s0.tr ++ [Op.rd MLX90632_EE_MEDICAL_MEAS1]⟩ sv1 sv2
      (by simpa using hu1) (by simpa using he) (by simpa using hs1) hsv1 hbb1
      (by simpa using hu2) (by simpa using hwv) (by simpa using hs2) hsv2 hbb2
    have htail : set_refresh_rate_meas2 fuel measRate e
        ⟨s0.nR + 1 + 2, s0.nW + 4,
         s0.tr ++ [Op.rd MLX90632_EE_MEDICAL_MEAS1,
            Op.wr 0x3005 MLX90632_EEPROM_WRITE_KEY,
            Op.wr MLX90632_EE_MEDICAL_MEAS1 0,
            Op.rd MLX90632_REG_STATUS,
            Op.wr 0x3005 MLX90632_EEPROM_WRITE_KEY,
            Op.wr MLX90632_EE_MEDICAL_MEAS1 (MLX90632_NEW_REG_VALUE m1 measRate),
            Op.rd MLX90632_REG_STATUS]⟩ =
        (0, ⟨s0.nR + 4, s0.nW + 4,
          s0.tr ++ [Op.rd MLX90632_EE_MEDICAL_MEAS1,
            Op.wr 0x3005 MLX90632_EEPROM_WRITE_KEY,
            Op.wr MLX90632_EE_MEDICAL_MEAS1 0,
            Op.rd MLX90632_REG_STATUS,
            Op.wr 0x3005 MLX90632_EEPROM_WRITE_KEY,
            Op.wr MLX90632_EE_MEDICAL_MEAS1 (MLX90632_NEW_REG_VALUE m1 measRate),
            Op.rd MLX90632_REG_STATUS,
            Op.rd MLX90632_EE_MEDICAL_MEAS2]⟩) := by
      simp [set_refresh_rate_meas2, mlx90632_i2c_read,
        (by omega : s0.nR + 1 + 2 = s0.nR + 3), h2, Nat.mod_eq_of_lt hb2, heq2,
        List.append_assoc]
    simp [mlx90632_set_refresh_rate, mlx90632_i2c_read, h1, Nat.mod_eq_of_lt hb1,
      Ne.symm hne1, hwr, htail]
  · intro heq1 m2 h2 hb2 hne2 hu1 he sv1 hs1 hsv1 hbb1 hu2 hwv sv2 hs2 hsv2 hbb2
    have hwr := write_eeprom_success fuel MLX90632_EE_MEDICAL_MEAS2
      (MLX90632_NEW_REG_VALUE m2 measRate) e
      ⟨s0.nR + 2, s0.nW,
       s0.tr ++ [Op.rd MLX90632_EE_MEDICAL_MEAS1, Op.rd MLX90632_EE_MEDICAL_MEAS2]⟩ sv1 sv2
      (by simpa using hu1) (by simpa using he) (by simpa using hs1) hsv1 hbb1
      (by simpa using hu2) (by simpa using hwv) (by simpa using hs2) hsv2 hbb2
    have htail : set_refresh_rate_meas2 fuel measRate e
        ⟨s0.nR + 1, s0.nW, s0.tr ++ [Op.rd MLX90632_EE_MEDICAL_MEAS1]⟩ =
        (0, ⟨s0.nR + 4, s0.nW + 4,
          s0.tr ++ [Op.rd MLX90632_EE_MEDICAL_MEAS1, Op.rd MLX90632_EE_MEDICAL_MEAS2,
            Op.wr 0x3005 MLX90632_EEPROM_WRITE_KEY,
            Op.wr MLX90632_EE_MEDICAL_MEAS2 0,
            Op.rd MLX90632_REG_STATUS,
            Op.wr 0x3005 MLX90632_EEPROM_WRITE_KEY,
            Op.wr MLX90632_EE_MEDICAL_MEAS2 (MLX90632_NEW_REG_VALUE m2 measRate),
            Op.rd MLX90632_REG_STATUS]⟩) := by
      simp [set_refresh_rate_meas2, mlx90632_i2c_read, h2, Nat.mod_eq_of_lt hb2,
        Ne.symm hne2, hwr, List.append_assoc]
    simp [mlx90632_set_refresh_rate, mlx90632_i2c_read, h1, Nat.mod_eq_of_lt hb1,
      heq1, htail]

/-- Witness environment for C6: both timing entries already hold the value
whose refresh-rate sub-field is the requested code 2. -/
def envSkipC6 : Env := ⟨fun _ _ => (0, 0x020D), fun _ _ _ => 0⟩

/-- Witness for C6: when both entries already match, the whole operation is
two reads and no writes. -/
theorem C6_set_refresh_rate_skip_or_write_witness :
    mlx90632_set_refresh_rate 5 2 envSkipC6 ⟨0, 0, []⟩ =
      (0, ⟨2, 0, [Op.rd MLX90632_EE_MEDICAL_MEAS1, Op.rd MLX90632_EE_MEDICAL_MEAS2]⟩) := by
  have h := ((C6_set_refresh_rate_skip_or_write 5 2 envSkipC6 ⟨0, 0, []⟩ 0x020D
      (by decide) (by decide)).1 (by decide) 0x020D (by decide) (by decide) (by decide)).1
  simpa using h

end MLX90632
